import Mathlib

/-!
Shallow embedding of `src/edge_tts_mcp_server/server.py` (edge-tts MCP server).

The server exposes two tools, `list_voices` and `text_to_speech`.  The
`text_to_speech` handler synthesizes audio to a temporary file, optionally
plays it through one of three backends (mpv, a Windows MCI call, or the OS
default opener), schedules deferred deletion of the temporary files, and on
any exception in the primary path retries once with basic parameters only.

Environment-dependent behaviour (which binaries exist, whether the provider
or a subprocess call raises, MCI return codes) is captured by explicit
environment records; I/O side effects (temporary-file creation, provider
calls, playback invocations, scheduled deletions) are recorded in an event
trace so that the specification's lifecycle claims can be stated.
-/

namespace EdgeTTS

/-- Playback backends, as dispatched by the `if mpv_available / elif Windows /
else` chain in `call_tool` (server.py lines 259–288). -/
inductive Backend where
  | mpv
  | win32
  | defaultOpener
deriving DecidableEq, Repr

/-- Which attempt of the two-tier fallback a side effect belongs to:
the `try` block (primary) or the `except` block (degraded). -/
inductive Phase where
  | primary
  | degraded
deriving DecidableEq, Repr

/-- Kinds of temporary artifacts created by the handler. -/
inductive ArtifactKind where
  | audio
  | caption
deriving DecidableEq, Repr

/-- The `edge_tts.Communicate` object: constructed with text and voice;
`rate` / `volume` / `pitch` attributes are only assigned afterwards when
non-neutral (`none` means the provider default is left untouched). -/
structure Communicate where
  text : String
  voice : String
  rate : Option String := none
  volume : Option String := none
  pitch : Option String := none
deriving DecidableEq, Repr

/-- Observable side effects of one `call_tool` invocation, in program order.
`createTemp` is a `tempfile.NamedTemporaryFile(...)` call, `providerCall`
is `communicate.save(...)`, `playbackInvoked` is entry into one playback
backend branch, `scheduleDeletion` is
`asyncio.create_task(_delayed_file_deletion(path, 10))`. -/
inductive Event where
  | createTemp (phase : Phase) (kind : ArtifactKind) (path : String)
  | providerCall (phase : Phase) (c : Communicate)
  | playbackInvoked (phase : Phase) (b : Backend)
  | scheduleDeletion (path : String)
deriving DecidableEq, Repr

/-- The JSON result of a successful `text_to_speech` call
(server.py lines 290–294). -/
structure ToolResult where
  audio_path : String
  text : String
  voice : String
deriving DecidableEq, Repr

/-- One voice entry of the provider's catalog, as read by `list_voices`. -/
structure Voice where
  name : String
  locale : String
  gender : String
  short_name : String
deriving DecidableEq, Repr

/-- Output of a successful `call_tool`: a voice listing or a TTS result. -/
inductive ToolOutput where
  | voices (vs : List Voice)
  | tts (r : ToolResult)
deriving DecidableEq, Repr

/-- The untyped `arguments` dict of a tool call: `none` models an absent
key, so `arguments.get(k, default)` becomes `Option.getD`. -/
structure Args where
  text : Option String := none
  voice : Option String := none
  rate : Option String := none
  volume : Option String := none
  pitch : Option String := none
  play_audio : Option Bool := none
  use_default_player : Option Bool := none
  locale : Option String := none
deriving DecidableEq, Repr

/-- Host state and nondeterministic outcomes of external calls, fixed for
one `call_tool` invocation.  A `...Raises` field set to `true` means the
corresponding Python call raises an exception at that point. -/
structure Env where
  /-- `which("mpv") is not None` -/
  mpvInstalled : Bool
  /-- `platform.system() == "Windows"` -/
  isWindows : Bool
  /-- `which("xdg-open")` succeeds -/
  hasXdgOpen : Bool
  /-- `which("open")` succeeds -/
  hasOpen : Bool
  /-- `await voices_manager.get_voices()` raises -/
  voicesRaises : Bool
  /-- the provider's voice catalog -/
  catalog : List Voice
  /-- `await communicate.save(temp_path)` raises in the `try` block -/
  primarySynthRaises : Bool
  /-- `await communicate.save(temp_path)` raises in the `except` block -/
  degradedSynthRaises : Bool
  /-- the mpv `subprocess.Popen` raises in the `try` block -/
  mpvPrimaryRaises : Bool
  /-- the mpv `subprocess.Popen` raises in the `except` block -/
  mpvDegradedRaises : Bool
deriving DecidableEq, Repr

/-! ### `play_mp3_win32` (server.py lines 41–97)

The function builds four MCI command strings and sends each with
`mci_send`, which returns `False` (after logging) on a non-zero return
code and `True` otherwise.  The four `mci_send` results are discarded by
`play_mp3_win32`, which then executes `return True`; only an exception in
the body (caught by the `try`/`except`) makes it return `False`. -/

/-- Environment of one `play_mp3_win32` call: the return code the OS media
subsystem gives each command string, and whether the ctypes setup (before
any MCI command is issued) raises. -/
structure WinEnv where
  mciCode : String → Nat
  setupRaises : Bool

/-- `mci_send` (server.py lines 74–80): send one MCI command string,
return whether its return code was zero.  A non-zero code is logged and
reported as `false`; it never raises. -/
def mci_send (env : WinEnv) (msg : String) : Bool :=
  env.mciCode msg == 0

/-- The four MCI command strings of `play_mp3_win32`, in issue order
(server.py lines 85–92), for the short path name of the mp3 file. -/
def mciCommands (shortName : String) : List String :=
  ["Close All",
   "Open \"" ++ shortName ++ "\" Type MPEGVideo Alias theMP3",
   "Play theMP3 Wait",
   "Close theMP3"]

/-- `play_mp3_win32` (server.py lines 41–97): returns the list of MCI
commands actually issued together with the function's return value.  If the
ctypes setup raises, the `except` branch logs and returns `False` with no
command issued.  Otherwise all four commands are issued in order — each
`mci_send` result is computed and discarded — and the function returns
`True` unconditionally. -/
def play_mp3_win32 (env : WinEnv) (shortName : String) : List String × Bool :=
  if env.setupRaises then
    ([], false)
  else
    let _close_all := mci_send env "Close All"
    let _open := mci_send env ("Open \"" ++ shortName ++ "\" Type MPEGVideo Alias theMP3")
    let _play := mci_send env "Play theMP3 Wait"
    let _close := mci_send env "Close theMP3"
    (mciCommands shortName, true)

/-! ### `_delayed_file_deletion` (server.py lines 100–108)

After the grace delay, the task checks `os.path.exists(temp_path)` and only
then calls `os.unlink`; any exception is caught and logged.  The filesystem
is modelled as an existence predicate `String → Bool`; `unlinkRaises`
models `os.unlink` raising (e.g. a permission error). -/

/-- `_delayed_file_deletion`: returns the filesystem after the deletion
attempt.  It is total — it never signals an error to anyone: a missing
file is skipped by the existence check, and an `os.unlink` failure is
swallowed by the `except` clause, leaving the filesystem unchanged. -/
def _delayed_file_deletion (fs : String → Bool) (unlinkRaises : Bool)
    (path : String) : String → Bool :=
  if fs path then
    if unlinkRaises then fs
    else fun p => if p = path then false else fs p
  else fs

/-! ### Argument extraction (server.py lines 210–227)

`arguments.get(...)` with defaults, followed by the derived flags
`use_mpv = not use_default_player` and
`mpv_available = use_mpv and is_mpv_installed()`. -/

/-- `arguments.get("text")`, coerced through Python's `if not text:` check:
both a missing key and the empty string are falsy, so we extract the text
with `""` standing for "missing or empty". -/
def Args.textVal (a : Args) : String := a.text.getD ""

/-- `arguments.get("voice", "ja-JP-NanamiNeural")` -/
def Args.voiceVal (a : Args) : String := a.voice.getD "ja-JP-NanamiNeural"

/-- `arguments.get("rate", "0%")` -/
def Args.rateVal (a : Args) : String := a.rate.getD "0%"

/-- `arguments.get("volume", "0%")` -/
def Args.volumeVal (a : Args) : String := a.volume.getD "0%"

/-- `arguments.get("pitch", "0%")` -/
def Args.pitchVal (a : Args) : String := a.pitch.getD "0%"

/-- `arguments.get("play_audio", True)` -/
def Args.playAudioVal (a : Args) : Bool := a.play_audio.getD true

/-- `arguments.get("use_default_player", False)` -/
def Args.useDefaultPlayerVal (a : Args) : Bool := a.use_default_player.getD false

/-- `is_mpv_installed` (server.py lines 111–113): `which("mpv") is not None`. -/
def is_mpv_installed (env : Env) : Bool := env.mpvInstalled

/-- `use_mpv = not use_default_player; mpv_available = use_mpv and
is_mpv_installed()` (server.py lines 222–225). -/
def mpvAvailable (env : Env) (a : Args) : Bool :=
  (!a.useDefaultPlayerVal) && is_mpv_installed env

/-- The `if mpv_available / elif platform.system() == "Windows" / else`
playback dispatch used identically in both attempts
(server.py lines 259–288 and 319–342). -/
def selectBackend (mpv_available isWindows : Bool) : Backend :=
  if mpv_available then .mpv
  else if isWindows then .win32
  else .defaultOpener

/-- One playback block (`if play_audio:` body).  It records which backend
branch ran.  Only the mpv branch can raise (`subprocess.Popen`);
`play_mp3_win32` catches every exception internally and its boolean result
is discarded by the caller, and the default-opener branch uses `os.system`
plus a fixed 0.5 s sleep, neither of which raises. -/
def playbackStep (env : Env) (phase : Phase) (mpvRaises : Bool)
    (mpv_available : Bool) : Except String Unit × List Event :=
  match selectBackend mpv_available env.isWindows with
  | .mpv =>
      if mpvRaises then (.error "mpv playback failed", [.playbackInvoked phase .mpv])
      else (.ok (), [.playbackInvoked phase .mpv])
  | .win32 => (.ok (), [.playbackInvoked phase .win32])
  | .defaultOpener => (.ok (), [.playbackInvoked phase .defaultOpener])

/-- The `edge_tts.Communicate` built in the `try` block (server.py lines
233–241): constructed from text and voice, then each prosody attribute is
assigned only under `if rate != "0%"` (resp. volume, pitch). -/
def primaryCommunicate (text voice rate volume pitch : String) : Communicate :=
  { text := text
    voice := voice
    rate := if rate ≠ "0%" then some rate else none
    volume := if volume ≠ "0%" then some volume else none
    pitch := if pitch ≠ "0%" then some pitch else none }

/-- The `try` block of the TEXT_TO_SPEECH case (server.py lines 229–301):
build the Communicate with prosody, create the audio temp file, create the
caption temp file when `mpv_available`, call `communicate.save`, play if
requested, then schedule deferred deletion of the audio file and — when the
caption file was created (it still exists, the grace window has not
elapsed) — of the caption file.  An exception from `save` or from playback
aborts the block with the events emitted so far. -/
def primaryAttempt (env : Env) (text voice rate volume pitch : String)
    (play_audio mpv_available : Bool) : Except String ToolResult × List Event :=
  let c := primaryCommunicate text voice rate volume pitch
  let evCreate : List Event :=
    [.createTemp .primary .audio "audio1"] ++
      (if mpv_available then [.createTemp .primary .caption "caption1"] else [])
  let evSave := evCreate ++ [.providerCall .primary c]
  if env.primarySynthRaises then
    (.error "synthesis failed", evSave)
  else
    let pb : Except String Unit × List Event :=
      if play_audio then playbackStep env .primary env.mpvPrimaryRaises mpv_available
      else (.ok (), [])
    match pb with
    | (.error e, evPb) => (.error e, evSave ++ evPb)
    | (.ok _, evPb) =>
        let evSched : List Event :=
          [.scheduleDeletion "audio1"] ++
            (if mpv_available then [.scheduleDeletion "caption1"] else [])
        (.ok ⟨"audio1", text, voice⟩, evSave ++ evPb ++ evSched)

/-- The `except` block of the TEXT_TO_SPEECH case (server.py lines
302–353): a fresh Communicate with no prosody attribute assigned, a fresh
audio temp file, `communicate.save`, playback if requested (same dispatch,
mpv without a caption argument), then a scheduled deletion of the new
audio file only — no caption file is created and no deletion of
primary-path files is scheduled.  Any exception here propagates. -/
def degradedAttempt (env : Env) (text voice : String)
    (play_audio mpv_available : Bool) : Except String ToolResult × List Event :=
  let c : Communicate := { text := text, voice := voice }
  let evSave : List Event :=
    [.createTemp .degraded .audio "audio2", .providerCall .degraded c]
  if env.degradedSynthRaises then
    (.error "synthesis failed", evSave)
  else
    let pb : Except String Unit × List Event :=
      if play_audio then playbackStep env .degraded env.mpvDegradedRaises mpv_available
      else (.ok (), [])
    match pb with
    | (.error e, evPb) => (.error e, evSave ++ evPb)
    | (.ok _, evPb) =>
        (.ok ⟨"audio2", text, voice⟩, evSave ++ evPb ++ [.scheduleDeletion "audio2"])

/-- The TEXT_TO_SPEECH case of `call_tool` (server.py lines 209–353):
validate the text (missing or empty raises before any file or provider
activity), extract arguments with their defaults, compute `mpv_available`,
run the `try` block, and on its exception run the `except` block exactly
once, whose outcome — success or exception — is final. -/
def textToSpeech (env : Env) (a : Args) : Except String ToolResult × List Event :=
  if a.textVal = "" then
    (.error "Missing required argument: text", [])
  else
    let play_audio := a.playAudioVal
    let mpv_available := mpvAvailable env a
    match primaryAttempt env a.textVal a.voiceVal a.rateVal a.volumeVal a.pitchVal
        play_audio mpv_available with
    | (.ok r, tr) => (.ok r, tr)
    | (.error _, tr) =>
        let fb := degradedAttempt env a.textVal a.voiceVal play_audio mpv_available
        (fb.1, tr ++ fb.2)

/-- The LIST_VOICES case of `call_tool` (server.py lines 190–207): fetch
the catalog (provider failure propagates) and, when a non-falsy locale was
supplied, keep only case-insensitive locale matches. -/
def listVoices (env : Env) (a : Args) : Except String ToolOutput :=
  if env.voicesRaises then .error "voices unavailable"
  else
    match a.locale with
    | some l =>
        if l ≠ "" then
          .ok (.voices (env.catalog.filter fun v => v.locale.toLower = l.toLower))
        else .ok (.voices env.catalog)
    | none => .ok (.voices env.catalog)

/-- The `match name:` dispatch inside the `try` of `call_tool` (server.py
lines 189–356): an unknown tool name raises `ValueError("Unknown tool: ...")`. -/
def call_tool_inner (env : Env) (name : String) (a : Args) :
    Except String ToolOutput × List Event :=
  if name = "list_voices" then
    (listVoices env a, [])
  else if name = "text_to_speech" then
    match textToSpeech env a with
    | (.ok r, tr) => (.ok (.tts r), tr)
    | (.error e, tr) => (.error e, tr)
  else
    (.error ("Unknown tool: " ++ name), [])

/-- `call_tool` (server.py lines 183–359): run the dispatch and wrap any
exception escaping it in
`ValueError(f"Error processing edge-tts query: {str(e)}")` (lines 358–359). -/
def call_tool (env : Env) (name : String) (a : Args) :
    Except String ToolOutput × List Event :=
  match call_tool_inner env name a with
  | (.error e, tr) => (.error ("Error processing edge-tts query: " ++ e), tr)
  | ok => ok

/-! ### Derived notions used by the specification claims -/

/-- Number of deferred deletions scheduled for `p` in a trace. -/
def schedCount (p : String) (tr : List Event) : Nat :=
  tr.count (Event.scheduleDeletion p)

/-- The primary attempt raises: `communicate.save` raises, or playback runs
on the mpv backend and `subprocess.Popen` raises. -/
def primaryFailsB (env : Env) (a : Args) : Bool :=
  env.primarySynthRaises ||
    (a.playAudioVal && mpvAvailable env a && env.mpvPrimaryRaises)

/-- The degraded attempt raises: its `communicate.save` raises, or playback
runs on the mpv backend and `subprocess.Popen` raises there. -/
def degradedFailsB (env : Env) (a : Args) : Bool :=
  env.degradedSynthRaises ||
    (a.playAudioVal && mpvAvailable env a && env.mpvDegradedRaises)

/-- A Linux-like host with mpv installed where every external call
succeeds; used to instantiate universally quantified theorems. -/
def sampleEnv : Env :=
  { mpvInstalled := true
    isWindows := false
    hasXdgOpen := true
    hasOpen := false
    voicesRaises := false
    catalog := []
    primarySynthRaises := false
    degradedSynthRaises := false
    mpvPrimaryRaises := false
    mpvDegradedRaises := false }

/-- A minimal valid `text_to_speech` argument dict: `{"text": "hello"}`. -/
def sampleArgs : Args := { text := some "hello" }

/-! ## Claim theorems -/

/-- A Windows media environment in which every MCI command returns the
failure code 1. -/
def winEnvAllFail : WinEnv :=
  { mciCode := fun _ => 1, setupRaises := false }

/-- A Windows media environment in which every MCI command returns 0. -/
def winEnvAllOk : WinEnv :=
  { mciCode := fun _ => 0, setupRaises := false }

/-- C3, counterexample: in an environment where every MCI step returns the
non-zero code 1 — so every `mci_send` reports failure — `play_mp3_win32`
still issues all four commands in order and reports overall success
(`True`), refuting "overall success is reported only if every step returned
the zero/success code". -/
theorem C3_counterexample :
    mci_send winEnvAllFail "Close All" = false ∧
    mci_send winEnvAllFail
      "Open \"short.mp3\" Type MPEGVideo Alias theMP3" = false ∧
    mci_send winEnvAllFail "Play theMP3 Wait" = false ∧
    mci_send winEnvAllFail "Close theMP3" = false ∧
    (play_mp3_win32 winEnvAllFail "short.mp3").1 = mciCommands "short.mp3" ∧
    (play_mp3_win32 winEnvAllFail "short.mp3").2 = true :=
  ⟨rfl, rfl, rfl, rfl, rfl, rfl⟩

/-- C3, amended: whenever the ctypes setup does not raise, the four MCI
command steps (close-all, open-with-alias, play-and-wait, close-alias) are
issued in that fixed order, a non-zero return code from a step does not
abort the sequence (the command list is independent of the return codes,
which only make `mci_send` log and report `false`), and overall success is
reported unconditionally — `play_mp3_win32` discards the per-step results
and returns `True`; only an exception makes it return `False`. -/
theorem C3_theorem (env : WinEnv) (s : String) (h : env.setupRaises = false) :
    (play_mp3_win32 env s).1 = mciCommands s ∧
    (play_mp3_win32 env s).2 = true := by
  simp [play_mp3_win32, h]

/-- C3, witness instantiating `C3_theorem` on a concrete environment. -/
theorem C3_witness :
    (play_mp3_win32 winEnvAllOk "a.mp3").1 = mciCommands "a.mp3" ∧
    (play_mp3_win32 winEnvAllOk "a.mp3").2 = true :=
  C3_theorem winEnvAllOk "a.mp3" rfl

/-- C8: the deferred deletion is idempotent and failure-proof: deleting a
path that does not exist leaves the filesystem unchanged (the existence
check short-circuits), deleting after a successful deletion is a no-op,
and an `os.unlink` failure is swallowed leaving the filesystem unchanged —
in every case the task signals no error (the function is total into the
filesystem type, with no error channel). -/
theorem C8_theorem (fs : String → Bool) (r : Bool) (p : String) :
    (fs p = false → _delayed_file_deletion fs r p = fs) ∧
    _delayed_file_deletion (_delayed_file_deletion fs false p) r p =
      _delayed_file_deletion fs false p ∧
    _delayed_file_deletion fs true p = fs := by
  refine ⟨fun h => by simp [_delayed_file_deletion, h], ?_, ?_⟩
  · by_cases h : fs p
    · simp [_delayed_file_deletion, h]
    · simp [_delayed_file_deletion, h]
  · by_cases h : fs p <;> simp [_delayed_file_deletion, h]

/-- C8, witness instantiating `C8_theorem` on the empty filesystem. -/
theorem C8_witness :
    _delayed_file_deletion (fun _ => false) false "tmp.mp3" = (fun _ => false) :=
  (C8_theorem (fun _ => false) false "tmp.mp3").1 rfl

/-- The wrapper of `call_tool` preserves the event trace of the
`text_to_speech` handler. -/
theorem call_tool_tts_trace (env : Env) (a : Args) :
    (call_tool env "text_to_speech" a).2 = (textToSpeech env a).2 := by
  rcases h : textToSpeech env a with ⟨res, tr⟩
  cases res <;> simp [call_tool, call_tool_inner, h]

/-- Every playback invocation recorded during a `text_to_speech` request —
primary or degraded — runs the backend chosen by the `if mpv_available /
elif Windows / else` dispatch on the request's flags and host state. -/
theorem playbackInvoked_backend (env : Env) (a : Args) (ph : Phase)
    (b : Backend)
    (h : Event.playbackInvoked ph b ∈ (textToSpeech env a).2) :
    b = selectBackend (mpvAvailable env a) env.isWindows := by
  by_cases ht : a.textVal = ""
  · simp [textToSpeech, ht] at h
  · cases hps : env.primarySynthRaises <;>
    cases hpa : a.playAudioVal <;>
    cases hma : mpvAvailable env a <;>
    cases hw : env.isWindows <;>
    cases hmp : env.mpvPrimaryRaises <;>
    cases hds : env.degradedSynthRaises <;>
    cases hmd : env.mpvDegradedRaises <;>
    simp_all [textToSpeech, primaryAttempt, degradedAttempt, playbackStep,
      selectBackend] <;>
    tauto

/-- C5: for a `text_to_speech` request whose `text` argument is missing or
empty, `call_tool` fails with the wrapped validation error and its event
trace is empty — no temporary file is created and no synthesis-provider
call is made. -/
theorem C5_theorem (env : Env) (a : Args)
    (h : a.text = none ∨ a.text = some "") :
    call_tool env "text_to_speech" a =
      (.error "Error processing edge-tts query: Missing required argument: text",
       []) := by
  have ht : a.textVal = "" := by rcases h with h | h <;> simp [Args.textVal, h]
  simp [call_tool, call_tool_inner, textToSpeech, ht]

/-- C5, witness: the empty-string text argument on a concrete host. -/
theorem C5_witness :
    call_tool sampleEnv "text_to_speech" { text := some "" } =
      (.error "Error processing edge-tts query: Missing required argument: text",
       []) :=
  C5_theorem sampleEnv { text := some "" } (Or.inr rfl)

/-- C9: every failure `call_tool` reports to the caller — validation
failure, terminal degraded-path failure, unknown tool name, or a provider
failure in `list_voices` — is a single error whose message is the inner
exception's message prefixed with "Error processing edge-tts query: ". -/
theorem C9_theorem (env : Env) (name : String) (a : Args) (e : String)
    (tr : List Event) (h : call_tool env name a = (.error e, tr)) :
    ∃ s, e = "Error processing edge-tts query: " ++ s := by
  unfold call_tool at h
  rcases hi : call_tool_inner env name a with ⟨res, tr2⟩
  rw [hi] at h
  cases res with
  | error e2 =>
      simp only [Prod.mk.injEq, Except.error.injEq] at h
      exact ⟨e2, h.1.symm⟩
  | ok r => simp at h

/-- C9, witness: the unknown-tool failure carries the uniform prefix. -/
theorem C9_witness :
    ∃ s, ("Error processing edge-tts query: Unknown tool: bogus" : String) =
      "Error processing edge-tts query: " ++ s :=
  C9_theorem sampleEnv "bogus" sampleArgs
    "Error processing edge-tts query: Unknown tool: bogus" [] rfl

/-- C6: backend selection is a deterministic function of the request flags
and host capabilities: with `use_default_player = false` and mpv on the
search path it selects mpv (the external-captioned backend); with
`use_default_player = true` it never selects mpv; and every playback
invocation a request records uses exactly the selected backend. -/
theorem C6_theorem (env : Env) (a : Args) :
    (a.useDefaultPlayerVal = false → env.mpvInstalled = true →
      selectBackend (mpvAvailable env a) env.isWindows = .mpv) ∧
    (a.useDefaultPlayerVal = true →
      selectBackend (mpvAvailable env a) env.isWindows ≠ .mpv) ∧
    (∀ ph b, Event.playbackInvoked ph b ∈ (call_tool env "text_to_speech" a).2 →
      b = selectBackend (mpvAvailable env a) env.isWindows) := by
  refine ⟨?_, ?_, ?_⟩
  · intro h1 h2
    simp [selectBackend, mpvAvailable, is_mpv_installed, h1, h2]
  · intro h1
    cases hw : env.isWindows <;>
      simp [selectBackend, mpvAvailable, is_mpv_installed, h1, hw]
  · intro ph b hmem
    rw [call_tool_tts_trace] at hmem
    exact playbackInvoked_backend env a ph b hmem

/-- C6, witness: on a host with mpv installed and default flags, the
selected backend is mpv. -/
theorem C6_witness :
    selectBackend (mpvAvailable sampleEnv sampleArgs) sampleEnv.isWindows =
      .mpv :=
  (C6_theorem sampleEnv sampleArgs).1 rfl rfl

/-- `sampleEnv` with a primary-path synthesis failure: `communicate.save`
raises in the `try` block, forcing the degraded attempt. -/
def envFallback : Env := { sampleEnv with primarySynthRaises := true }

/-- C1, counterexample: on a host with mpv installed, when the primary
`communicate.save` raises, the primary attempt has already created the
audio and caption temporary files; the degraded attempt succeeds and the
request returns its result — yet no deletion is ever scheduled for either
primary-path artifact, refuting "every temporary artifact created during
the request has exactly one scheduled deletion". -/
theorem C1_counterexample :
    Event.createTemp .primary .audio "audio1" ∈
        (call_tool envFallback "text_to_speech" sampleArgs).2 ∧
    Event.createTemp .primary .caption "caption1" ∈
        (call_tool envFallback "text_to_speech" sampleArgs).2 ∧
    schedCount "audio1" (call_tool envFallback "text_to_speech" sampleArgs).2 = 0 ∧
    schedCount "caption1" (call_tool envFallback "text_to_speech" sampleArgs).2 = 0 ∧
    (call_tool envFallback "text_to_speech" sampleArgs).1 =
      .ok (.tts ⟨"audio2", "hello", "ja-JP-NanamiNeural"⟩) :=
  ⟨by decide, by decide, by decide, by decide, rfl⟩

set_option maxHeartbeats 2000000 in
/-- C1, amended: temporary-artifact paths are confined to the three
per-request names; when the primary attempt completes without an
exception, each artifact it created (the audio file, plus the caption file
exactly when the mpv backend is available) has exactly one scheduled
deletion; when an exception forces the fallback, the artifacts already
created by the primary attempt have no deletion scheduled at all, and the
fallback's audio artifact is scheduled exactly once provided the fallback
itself completes (and never otherwise). -/
theorem C1_theorem (env : Env) (a : Args) (h : a.textVal ≠ "")
    (tr : List Event) (htr : tr = (call_tool env "text_to_speech" a).2) :
    (∀ ph k p, Event.createTemp ph k p ∈ tr →
      p = "audio1" ∨ p = "caption1" ∨ p = "audio2") ∧
    (primaryFailsB env a = false →
      schedCount "audio1" tr = 1 ∧
      Event.createTemp .primary .audio "audio1" ∈ tr ∧
      (Event.createTemp .primary .caption "caption1" ∈ tr ↔
        mpvAvailable env a = true) ∧
      (mpvAvailable env a = true → schedCount "caption1" tr = 1) ∧
      (mpvAvailable env a = false → schedCount "caption1" tr = 0) ∧
      schedCount "audio2" tr = 0) ∧
    (primaryFailsB env a = true →
      Event.createTemp .primary .audio "audio1" ∈ tr ∧
      schedCount "audio1" tr = 0 ∧
      schedCount "caption1" tr = 0 ∧
      Event.createTemp .degraded .audio "audio2" ∈ tr ∧
      (degradedFailsB env a = false → schedCount "audio2" tr = 1) ∧
      (degradedFailsB env a = true → schedCount "audio2" tr = 0)) := by
  subst htr
  rw [call_tool_tts_trace]
  refine ⟨?_, ?_, ?_⟩
  · intro ph k p hc
    cases hps : env.primarySynthRaises <;>
    cases hpa : a.playAudioVal <;>
    cases hma : mpvAvailable env a <;>
    cases hw : env.isWindows <;>
    cases hmp : env.mpvPrimaryRaises <;>
    cases hds : env.degradedSynthRaises <;>
    cases hmd : env.mpvDegradedRaises <;>
    simp_all [textToSpeech, primaryAttempt, degradedAttempt, playbackStep,
      selectBackend] <;>
    tauto
  · intro hpf
    cases hps : env.primarySynthRaises <;>
    cases hpa : a.playAudioVal <;>
    cases hma : mpvAvailable env a <;>
    cases hw : env.isWindows <;>
    cases hmp : env.mpvPrimaryRaises <;>
    cases hds : env.degradedSynthRaises <;>
    cases hmd : env.mpvDegradedRaises <;>
    simp_all [textToSpeech, primaryAttempt, degradedAttempt, playbackStep,
      selectBackend, primaryFailsB, degradedFailsB, schedCount, List.count_cons]
  · intro hpf
    cases hps : env.primarySynthRaises <;>
    cases hpa : a.playAudioVal <;>
    cases hma : mpvAvailable env a <;>
    cases hw : env.isWindows <;>
    cases hmp : env.mpvPrimaryRaises <;>
    cases hds : env.degradedSynthRaises <;>
    cases hmd : env.mpvDegradedRaises <;>
    simp_all [textToSpeech, primaryAttempt, degradedAttempt, playbackStep,
      selectBackend, primaryFailsB, degradedFailsB, schedCount, List.count_cons]

/-- C1, witness: with a failing primary synthesis on a concrete host, the
fallback's audio artifact is scheduled for deletion exactly once. -/
theorem C1_witness :
    schedCount "audio2" (call_tool envFallback "text_to_speech" sampleArgs).2 = 1 :=
  ((C1_theorem envFallback sampleArgs (by decide) _ rfl).2.2
    (by decide)).2.2.2.2.1 (by decide)

/-- `sampleEnv` where the mpv subprocess launch raises in both the primary
and the degraded attempt (synthesis itself always succeeds). -/
def envMpvRaises : Env :=
  { sampleEnv with mpvPrimaryRaises := true, mpvDegradedRaises := true }

/-- C2, counterexample: synthesis succeeds on both attempts, but the mpv
playback subprocess raises each time; the playback exception of the
degraded attempt escapes `call_tool` as a request-level error and no
result with an audio path is returned — refuting "a playback failure in
any backend never surfaces to the caller". -/
theorem C2_counterexample :
    envMpvRaises.primarySynthRaises = false ∧
    envMpvRaises.degradedSynthRaises = false ∧
    Event.playbackInvoked .primary .mpv ∈
        (call_tool envMpvRaises "text_to_speech" sampleArgs).2 ∧
    (call_tool envMpvRaises "text_to_speech" sampleArgs).1 =
      .error "Error processing edge-tts query: mpv playback failed" :=
  ⟨rfl, rfl, by decide, rfl⟩

/-- C2, amended: playback failures reported through backend status codes
never surface (the win32 and opener backends cannot raise, and their
status results are discarded); a playback exception in the primary attempt
does not surface either, but it triggers the full degraded attempt — the
returned audio path is then the degraded attempt's file; only a playback
exception in the degraded attempt surfaces.  Whenever synthesis succeeds
and the degraded playback does not raise, the request returns a result
containing an audio path. -/
theorem C2_theorem (env : Env) (a : Args) (h1 : a.textVal ≠ "")
    (h2 : env.primarySynthRaises = false)
    (h3 : env.degradedSynthRaises = false)
    (h4 : (a.playAudioVal && mpvAvailable env a && env.mpvDegradedRaises) = false) :
    (call_tool env "text_to_speech" a).1 =
      .ok (.tts
        ⟨if a.playAudioVal && mpvAvailable env a && env.mpvPrimaryRaises then
            "audio2"
          else "audio1",
         a.textVal, a.voiceVal⟩) := by
  cases hpa : a.playAudioVal <;>
  cases hma : mpvAvailable env a <;>
  cases hw : env.isWindows <;>
  cases hmp : env.mpvPrimaryRaises <;>
  cases hmd : env.mpvDegradedRaises <;>
  simp_all [call_tool, call_tool_inner, textToSpeech, primaryAttempt,
    degradedAttempt, playbackStep, selectBackend]

/-- C2, witness: on a concrete host where nothing raises, the request
returns the primary audio path. -/
theorem C2_witness :
    (call_tool sampleEnv "text_to_speech" sampleArgs).1 =
      .ok (.tts ⟨"audio1", "hello", "ja-JP-NanamiNeural"⟩) :=
  C2_theorem sampleEnv sampleArgs (by decide) rfl rfl (by decide)

set_option maxHeartbeats 2000000 in
/-- C4: when the primary attempt raises (in synthesis, or in playback with
the play flag set), the degraded synthesis call is made exactly once and
with no prosody attribute assigned, no caption file is created in the
degraded path, and the degraded attempt's outcome is final: a degraded
exception becomes the request's error, otherwise the request returns the
degraded audio path. -/
theorem C4_theorem (env : Env) (a : Args) (h1 : a.textVal ≠ "")
    (h2 : primaryFailsB env a = true) :
    (call_tool env "text_to_speech" a).2.count
        (Event.providerCall .degraded
          ⟨a.textVal, a.voiceVal, none, none, none⟩) = 1 ∧
    (∀ c, Event.providerCall .degraded c ∈ (call_tool env "text_to_speech" a).2 →
      c.rate = none ∧ c.volume = none ∧ c.pitch = none) ∧
    (∀ p, Event.createTemp .degraded .caption p ∉
      (call_tool env "text_to_speech" a).2) ∧
    (degradedFailsB env a = true →
      ∃ e, (call_tool env "text_to_speech" a).1 = .error e) ∧
    (degradedFailsB env a = false →
      (call_tool env "text_to_speech" a).1 =
        .ok (.tts ⟨"audio2", a.textVal, a.voiceVal⟩)) := by
  refine ⟨?_, ?_, ?_, ?_, ?_⟩ <;>
  · try intro c hc
    try intro p
    try intro hd
    cases hps : env.primarySynthRaises <;>
    cases hpa : a.playAudioVal <;>
    cases hma : mpvAvailable env a <;>
    cases hw : env.isWindows <;>
    cases hmp : env.mpvPrimaryRaises <;>
    cases hds : env.degradedSynthRaises <;>
    cases hmd : env.mpvDegradedRaises <;>
    simp_all [call_tool, call_tool_inner, textToSpeech, primaryAttempt,
      degradedAttempt, playbackStep, selectBackend, primaryFailsB,
      degradedFailsB, primaryCommunicate]

/-- C4, witness: with a failing primary synthesis on a concrete host, the
request returns the degraded attempt's audio path. -/
theorem C4_witness :
    (call_tool envFallback "text_to_speech" sampleArgs).1 =
      .ok (.tts ⟨"audio2", "hello", "ja-JP-NanamiNeural"⟩) :=
  (C4_theorem envFallback sampleArgs (by decide) (by decide)).2.2.2.2 (by decide)

/-- C7: the primary synthesis call of every `text_to_speech` request
applies each prosody parameter if and only if it differs from the neutral
"0%" string — a parameter equal to "0%" leaves the provider default
untouched (`none`), independently for rate, volume and pitch. -/
theorem C7_theorem (env : Env) (a : Args) (h : a.textVal ≠ "") :
    Event.providerCall .primary
        (primaryCommunicate a.textVal a.voiceVal a.rateVal a.volumeVal
          a.pitchVal) ∈ (call_tool env "text_to_speech" a).2 ∧
    (∀ c, Event.providerCall .primary c ∈ (call_tool env "text_to_speech" a).2 →
      c.rate = (if a.rateVal ≠ "0%" then some a.rateVal else none) ∧
      c.volume = (if a.volumeVal ≠ "0%" then some a.volumeVal else none) ∧
      c.pitch = (if a.pitchVal ≠ "0%" then some a.pitchVal else none)) := by
  rw [call_tool_tts_trace]
  constructor
  · cases hps : env.primarySynthRaises <;>
    cases hpa : a.playAudioVal <;>
    cases hma : mpvAvailable env a <;>
    cases hw : env.isWindows <;>
    cases hmp : env.mpvPrimaryRaises <;>
    cases hds : env.degradedSynthRaises <;>
    cases hmd : env.mpvDegradedRaises <;>
    simp_all [textToSpeech, primaryAttempt, degradedAttempt, playbackStep,
      selectBackend]
  · intro c hc
    cases hps : env.primarySynthRaises <;>
    cases hpa : a.playAudioVal <;>
    cases hma : mpvAvailable env a <;>
    cases hw : env.isWindows <;>
    cases hmp : env.mpvPrimaryRaises <;>
    cases hds : env.degradedSynthRaises <;>
    cases hmd : env.mpvDegradedRaises <;>
    simp_all [textToSpeech, primaryAttempt, degradedAttempt, playbackStep,
      selectBackend, primaryCommunicate]

/-- Arguments with a non-neutral rate and an explicitly neutral volume. -/
def argsProsody : Args := { text := some "hi", rate := some "+10%" }

/-- C7, witness: with rate "+10%" and the other parameters neutral, the
primary synthesis call applies only the rate. -/
theorem C7_witness :
    Event.providerCall .primary
        (primaryCommunicate "hi" "ja-JP-NanamiNeural" "+10%" "0%" "0%") ∈
      (call_tool sampleEnv "text_to_speech" argsProsody).2 :=
  (C7_theorem sampleEnv argsProsody (by decide)).1

/-- C10: a caption temporary file is created exactly when the mpv backend
is available (`use_default_player` unset/false and mpv on the search
path), independently of the `play_audio` flag — caption-artifact creation
depends only on backend availability, not on whether playback occurs. -/
theorem C10_theorem (env : Env) (a : Args) (h : a.textVal ≠ "") :
    Event.createTemp .primary .caption "caption1" ∈
        (call_tool env "text_to_speech" a).2 ↔
      mpvAvailable env a = true := by
  rw [call_tool_tts_trace]
  cases hps : env.primarySynthRaises <;>
  cases hpa : a.playAudioVal <;>
  cases hma : mpvAvailable env a <;>
  cases hw : env.isWindows <;>
  cases hmp : env.mpvPrimaryRaises <;>
  cases hds : env.degradedSynthRaises <;>
  cases hmd : env.mpvDegradedRaises <;>
  simp_all [textToSpeech, primaryAttempt, degradedAttempt, playbackStep,
    selectBackend]

/-- Arguments that disable playback while mpv remains the selected backend. -/
def argsNoPlay : Args := { text := some "hello", play_audio := some false }

/-- C10, witness: with `play_audio = false` and mpv installed, the caption
file is still created. -/
theorem C10_witness :
    Event.createTemp .primary .caption "caption1" ∈
      (call_tool sampleEnv "text_to_speech" argsNoPlay).2 :=
  (C10_theorem sampleEnv argsNoPlay (by decide)).mpr (by decide)

end EdgeTTS
